import Mathlib

/-!
Verification of the Resilient Operation & Storage Subsystem of the
speech-to-text repository: a shallow embedding of
`src/services/storage.py` (path resolution, save, delete, orphan
reconciliation) and `src/utils/retry.py` (retry with exponential
backoff and error classification), together with theorems settling the
spec's testable properties against these definitions.
-/

/-! ## String helpers

Python string primitives used by the source, modelled over the
character list of a Lean `String` so that all definitions reduce. -/

/-- ASCII lowercasing of one character, as Python `str.lower` acts on
the ASCII range used by the error-classification tokens. -/
def lowerChar (c : Char) : Char :=
  if 65 ≤ c.toNat ∧ c.toNat ≤ 90 then Char.ofNat (c.toNat + 32) else c

/-- Python `s.lower()`. -/
def strLower (s : String) : String := ⟨s.data.map lowerChar⟩

/-- Substring containment on character lists: `pat` occurs contiguously
in the given list. -/
def listContainsSub (pat : List Char) : List Char → Bool
  | [] => pat.isEmpty
  | c :: cs => pat.isPrefixOf (c :: cs) || listContainsSub pat cs

/-- Python `pat in s` (substring containment). -/
def strContainsSub (s pat : String) : Bool := listContainsSub pat.data s.data

/-- Python `s.startswith(pre)`. -/
def strStarts (s pre : String) : Bool := pre.data.isPrefixOf s.data

/-! ## Storage service error taxonomy

`src/services/storage.py` lines 22-39: the exception classes raised by
`StorageService`. -/

/-- Error kinds of the storage service: `InvalidPathError`,
`PermissionError`, `DiskFullError`, and the catch-all `StorageError`. -/
inductive StorageErr where
  | invalidPath
  | permission
  | diskFull
  | storageFailure
deriving DecidableEq

/-! ## Path Resolver

`StorageService.get_audio_file_path` (storage.py lines 207-243).

The OS-level `Path.resolve()` call is modelled by an oracle
`resolve : String → Option String`: `some r` means resolution returned
the normalized absolute string `r`, `none` means resolution raised an
OS-level exception.  The Python `try` block converts any exception —
including the `InvalidPathError` raised by the in-root check itself —
into `InvalidPathError`, which the model reflects by returning
`.error .invalidPath` on every failing branch.  `base_path / rel_path`
is modelled as string concatenation with a separator, which is faithful
because the leading-`/` case (where pathlib would discard the base) has
already been rejected. -/
def get_audio_file_path (resolve : String → Option String)
    (basePath relative_path : String) : Except StorageErr String :=
  -- storage.py line 222: `if '..' in relative_path or relative_path.startswith('/')`
  if strContainsSub relative_path ".." || strStarts relative_path "/" then
    .error .invalidPath
  else
    -- lines 227-243: the try block around resolution and the in-root check
    match resolve (basePath ++ "/" ++ relative_path) with
    | none => .error .invalidPath
    | some resolved =>
      match resolve basePath with
      | none => .error .invalidPath
      | some base_resolved =>
        -- line 235: `if not str(resolved).startswith(str(base_resolved))`
        if strStarts resolved base_resolved then .ok resolved
        else .error .invalidPath

/-! ## Blob Store: delete

`StorageService.delete_audio_file` (storage.py lines 245-280).

The filesystem state is a list of relative paths of the files currently
present under the storage root (Python's `rglob` enumeration yields each
file once, so the list is duplicate-free in every reachable state; the
theorems that need this carry a `Nodup` hypothesis).  `full_path.exists()`
is membership of the relative path; `full_path.unlink()` removes it and
may fail, modelled by the oracle `unlinkOk` (a failing unlink raises,
which the handlers at lines 275-280 re-raise as a storage error, leaving
the file in place).  The best-effort `_cleanup_empty_directories` walk
touches only empty directories, never files, so it does not affect the
file-set state and is not modelled. -/
def delete_audio_file (resolve : String → Option String)
    (unlinkOk : String → Bool) (basePath : String)
    (store : List String) (relative_path : String) :
    Except StorageErr (List String × Bool) :=
  match get_audio_file_path resolve basePath relative_path with
  | .error e => .error e
  | .ok _ =>
    if relative_path ∈ store then
      if unlinkOk relative_path then .ok (store.erase relative_path, true)
      else .error .permission
    else .ok (store, false)

/-! ## Blob Store: save

`StorageService.save_audio_file` (storage.py lines 134-205).

Extension normalization, UUID generation and the date partition
(lines 160-181) only compute the relative path, abstracted here as the
`relative_path` argument.  The write step (lines 184-205) is modelled by
an outcome oracle: `open(full_path, 'wb')` either fails before creating
the file (`openFail`) or creates it, after which `copyfileobj` either
completes (`success`) or raises partway with the partially written file
on disk (`writeFail`).  None of the exception handlers at lines 192-205
unlink `full_path`; they only map the exception and re-raise, so on
`writeFail` the partial file stays in the state. -/

/-- Python exception raised by `open`/`copyfileobj`: `PermissionError`,
`OSError` with an errno, or any other exception. -/
inductive PyExc where
  | permissionError
  | osError (errno : Int)
  | otherError
deriving DecidableEq

/-- Outcome of the write step of `save_audio_file`. -/
inductive WriteOutcome where
  | success
  | openFail (e : PyExc)
  | writeFail (e : PyExc)
deriving DecidableEq

/-- Exception mapping of the handlers at storage.py lines 192-205:
`PermissionError → PermissionError`, `OSError` with errno 28 or 112 →
`DiskFullError`, any other `OSError` or exception → `StorageError`. -/
def classifyWriteExc : PyExc → StorageErr
  | .permissionError => .permission
  | .osError errno => if errno = 28 ∨ errno = 112 then .diskFull else .storageFailure
  | .otherError => .storageFailure

/-- The write step of `save_audio_file`: returns the filesystem state
after the call together with the returned relative path or raised
error. -/
def save_audio_file (store : List String) (relative_path : String)
    (outcome : WriteOutcome) : List String × Except StorageErr String :=
  match outcome with
  | .success => (relative_path :: store, .ok relative_path)
  | .openFail e => (store, .error (classifyWriteExc e))
  | .writeFail e => (relative_path :: store, .error (classifyWriteExc e))

/-! ## Reconciler

`StorageService.cleanup_orphaned_files` (storage.py lines 331-366) and
`get_all_stored_files` (lines 304-329).  Enumeration returns the file
set itself (the state list); the orphan set `stored_files -
database_files` is the sublist of stored files not referenced by the
database; each orphan is deleted with per-file exceptions swallowed
(lines 357-359), counting the deletes that returned `True`. -/

/-- One iteration of the cleanup loop (storage.py lines 352-359): the
accumulator is the filesystem state with the running deleted count; a
raising delete leaves both unchanged and processing continues. -/
def cleanupStep (resolve : String → Option String)
    (unlinkOk : String → Bool) (basePath : String)
    (acc : List String × Nat) (relative_path : String) : List String × Nat :=
  match delete_audio_file resolve unlinkOk basePath acc.1 relative_path with
  | .ok (st, true) => (st, acc.2 + 1)
  | .ok (st, false) => (st, acc.2)
  | .error _ => acc

/-- Reconciliation: computes the orphans and folds the deletion loop
over them, returning the final filesystem state and the deleted count
(the Python function returns only the count; the state is the implicit
filesystem effect). -/
def cleanup_orphaned_files (resolve : String → Option String)
    (unlinkOk : String → Bool) (basePath : String)
    (store database_files : List String) : List String × Nat :=
  let stored_files := store
  let orphaned_files := stored_files.filter (fun p => decide (p ∉ database_files))
  orphaned_files.foldl (cleanupStep resolve unlinkOk basePath) (store, 0)

/-! ## Theorems: Path Resolver claims -/

/-- C1: for every identifier string that contains a `..` sequence (in
particular every identifier with a `..` segment) or starts with the
absolute-path prefix `/`, `get_audio_file_path` fails with
`InvalidPathError` — for every storage root and every behaviour of the
OS-level resolution, since the check at storage.py line 222 runs before
resolution.  This includes traversal after a valid date-partition
prefix such as `2024/01/15/../../etc/passwd` (see the witness). -/
theorem c1_traversal_rejected (resolve : String → Option String)
    (basePath relative_path : String)
    (h : strContainsSub relative_path ".." = true ∨
         strStarts relative_path "/" = true) :
    get_audio_file_path resolve basePath relative_path = .error .invalidPath := by
  unfold get_audio_file_path
  rcases h with h | h <;> simp [h]

/-- Witness for C1 at the spec's own example input
`2024/01/15/../../etc/passwd`, under an arbitrary concrete root and
resolution oracle. -/
theorem c1_traversal_rejected_witness :
    get_audio_file_path (fun s => some s) "/data/audio"
      "2024/01/15/../../etc/passwd" = .error .invalidPath :=
  c1_traversal_rejected (fun s => some s) "/data/audio"
    "2024/01/15/../../etc/passwd" (Or.inl (by decide))

/-- C10: `get_audio_file_path` raises only `InvalidPathError`: whatever
the input and whatever the OS-level resolution does (including raising,
modelled by the oracle returning `none`), every failing outcome is
`InvalidPathError`. -/
theorem c10_only_invalid_path (resolve : String → Option String)
    (basePath relative_path : String) (e : StorageErr)
    (h : get_audio_file_path resolve basePath relative_path = .error e) :
    e = .invalidPath := by
  unfold get_audio_file_path at h
  split at h
  · exact (Except.error.injEq .. ▸ h).symm
  · split at h
    · exact (Except.error.injEq .. ▸ h).symm
    · split at h
      · exact (Except.error.injEq .. ▸ h).symm
      · split at h
        · exact absurd h (by simp)
        · exact (Except.error.injEq .. ▸ h).symm

/-- Witness for C10: a concrete resolution failure (the oracle raises)
is converted to `InvalidPathError`. -/
theorem c10_only_invalid_path_witness :
    (StorageErr.invalidPath = StorageErr.invalidPath) ∧
    get_audio_file_path (fun _ => none) "/data/audio" "2024/01/15/a.mp3" =
      .error .invalidPath :=
  ⟨c10_only_invalid_path (fun _ => none) "/data/audio" "2024/01/15/a.mp3"
      .invalidPath rfl, rfl⟩

/-! ## Theorems: Blob Store and Reconciler claims -/

/-- One cleanup iteration changes the filesystem state at most by
erasing the identifier being deleted; on a raised (and swallowed) error
the state is unchanged. -/
lemma cleanupStep_state (resolve : String → Option String)
    (unlinkOk : String → Bool) (basePath : String)
    (acc : List String × Nat) (q : String) :
    (cleanupStep resolve unlinkOk basePath acc q).1 = acc.1 ∨
    (cleanupStep resolve unlinkOk basePath acc q).1 = acc.1.erase q := by
  unfold cleanupStep delete_audio_file
  cases get_audio_file_path resolve basePath q with
  | error e => simp
  | ok r =>
    by_cases hq : q ∈ acc.1
    · by_cases hu : unlinkOk q <;> simp [hq, hu]
    · simp [hq]

/-- Folding the cleanup loop over a list of identifiers none of which is
referenced by the database never changes membership of a referenced
identifier in the filesystem state. -/
lemma cleanupFold_mem (resolve : String → Option String)
    (unlinkOk : String → Bool) (basePath : String)
    (database_files : List String) (p : String) (hp : p ∈ database_files)
    (orphans : List String) (horph : ∀ q ∈ orphans, q ∉ database_files)
    (acc : List String × Nat) :
    (p ∈ (orphans.foldl (cleanupStep resolve unlinkOk basePath) acc).1 ↔
      p ∈ acc.1) := by
  induction orphans generalizing acc with
  | nil => exact Iff.rfl
  | cons q qs ih =>
    have hq : q ∉ database_files := horph q (List.mem_cons_self _ _)
    have hpq : p ≠ q := fun hEq => hq (hEq ▸ hp)
    rw [List.foldl_cons,
        ih (fun r hr => horph r (List.mem_cons_of_mem _ hr)) _]
    rcases cleanupStep_state resolve unlinkOk basePath acc q with h1 | h1
    · rw [h1]
    · rw [h1]; exact List.mem_erase_of_ne hpq

/-- C2: `cleanup_orphaned_files` never deletes an identifier that is a
member of the reference set `database_files` — membership of any
referenced identifier in the filesystem state is unchanged — and when
the reference set covers the full set currently in the store it deletes
0 blobs and returns 0 with the store untouched. -/
theorem c2_reconcile_preserves_references (resolve : String → Option String)
    (unlinkOk : String → Bool) (basePath : String)
    (store database_files : List String) :
    (∀ p ∈ database_files,
      (p ∈ (cleanup_orphaned_files resolve unlinkOk basePath store
              database_files).1 ↔ p ∈ store)) ∧
    ((∀ p ∈ store, p ∈ database_files) →
      cleanup_orphaned_files resolve unlinkOk basePath store database_files =
        (store, 0)) := by
  constructor
  · intro p hp
    unfold cleanup_orphaned_files
    exact cleanupFold_mem resolve unlinkOk basePath database_files p hp _
      (fun q hq => of_decide_eq_true (List.mem_filter.mp hq).2) (store, 0)
  · intro hall
    unfold cleanup_orphaned_files
    have hfil : store.filter (fun p => decide (p ∉ database_files)) = [] :=
      List.filter_eq_nil_iff.mpr (fun a ha => by simp [hall a ha])
    simp only [hfil]
    rfl

/-- Witness for C2: a store whose single blob is referenced is left
untouched and the reconciler reports 0 deletions. -/
theorem c2_reconcile_preserves_references_witness :
    cleanup_orphaned_files (fun s => some s) (fun _ => true) "/data/audio"
      ["2024/01/15/a.mp3"] ["2024/01/15/a.mp3"] = (["2024/01/15/a.mp3"], 0) :=
  (c2_reconcile_preserves_references (fun s => some s) (fun _ => true)
      "/data/audio" ["2024/01/15/a.mp3"] ["2024/01/15/a.mp3"]).2 (by decide)

/-- C3 counterexample: the claim says a failed write removes the
partially written file before the error is surfaced.  On a disk-full
failure (OSError errno 28) during `copyfileobj`, the call raises
`DiskFullError` yet the partial blob is still present in the filesystem
state: no handler at storage.py lines 192-205 unlinks it. -/
theorem c3_halfwritten_blob_counterexample :
    (save_audio_file [] "2024/01/15/a.mp3"
        (.writeFail (.osError 28))).2 = .error .diskFull ∧
    "2024/01/15/a.mp3" ∈ (save_audio_file [] "2024/01/15/a.mp3"
        (.writeFail (.osError 28))).1 :=
  ⟨rfl, List.mem_cons_self _ _⟩

/-- C3 amended: on any failure raised during the write of the target
file (after `open` created it), `save_audio_file` surfaces the mapped
error (`PermissionError`, `DiskFullError` on errno 28/112, else
`StorageError`) and the partially written file is left on disk, not
removed. -/
theorem c3_halfwritten_blob_left_behind (store : List String)
    (relative_path : String) (e : PyExc) :
    save_audio_file store relative_path (.writeFail e) =
      (relative_path :: store, .error (classifyWriteExc e)) := rfl

/-- C8: under normal resolution of a well-formed identifier (no `..`,
no leading `/`), deleting an identifier whose file does not exist
returns `false` rather than raising, and after any successful delete
call a second delete of the same identifier returns `false` and leaves
the state unchanged (deletion is idempotent). -/
theorem c8_delete_missing_idempotent (resolve : String → Option String)
    (unlinkOk : String → Bool) (basePath : String) (store : List String)
    (p r b : String) (hnd : store.Nodup)
    (h1 : strContainsSub p ".." = false) (h2 : strStarts p "/" = false)
    (h3 : resolve (basePath ++ "/" ++ p) = some r)
    (h4 : resolve basePath = some b) (h5 : strStarts r b = true) :
    (p ∉ store →
      delete_audio_file resolve unlinkOk basePath store p = .ok (store, false)) ∧
    (∀ st, delete_audio_file resolve unlinkOk basePath store p = .ok st →
      delete_audio_file resolve unlinkOk basePath st.1 p = .ok (st.1, false)) := by
  have hres : get_audio_file_path resolve basePath p = .ok r := by
    unfold get_audio_file_path
    simp [h1, h2, h3, h4, h5]
  constructor
  · intro hmem
    unfold delete_audio_file
    rw [hres]
    simp [hmem]
  · intro st hdel
    unfold delete_audio_file at hdel ⊢
    rw [hres] at hdel ⊢
    by_cases hmem : p ∈ store
    · by_cases hu : unlinkOk p
      · simp only [if_pos hmem, if_pos hu, Except.ok.injEq] at hdel
        have hpe : p ∉ st.1 := by
          rw [← hdel]
          exact hnd.not_mem_erase
        simp [hpe]
      · simp [hmem, hu] at hdel
    · simp only [if_neg hmem, Except.ok.injEq] at hdel
      have hpe : p ∉ st.1 := by
        rw [← hdel]
        exact hmem
      simp [hpe]

/-- Witness for C8: deleting a never-saved identifier from a concrete
store returns `false`, not an error. -/
theorem c8_delete_missing_idempotent_witness :
    delete_audio_file (fun s => some s) (fun _ => true) "/data/audio"
      ["2024/01/15/a.mp3"] "2024/01/15/b.mp3" =
      .ok (["2024/01/15/a.mp3"], false) :=
  (c8_delete_missing_idempotent (fun s => some s) (fun _ => true)
      "/data/audio" ["2024/01/15/a.mp3"] "2024/01/15/b.mp3"
      "/data/audio/2024/01/15/b.mp3" "/data/audio"
      (by decide) (by decide) (by decide) (by decide) (by decide)
      (by decide)).1 (by decide)

/-! ## Backoff Policy

`src/utils/retry.py`.  An exception is observed by the classifiers only
through `type(e).__name__` and `str(e)`, so a Python exception is
modelled as that pair of strings. -/

/-- Python exception as seen by the retry wrapper: its type name
(`type(e).__name__`) and its message (`str(e)`). -/
structure PyError where
  typeName : String
  message : String
deriving DecidableEq

/-- Classifier `_is_retryable_error` (retry.py lines 115-150): exact
type-name match against the retryable list, then message-token checks on
the lowercased message. -/
def _is_retryable_error (error : PyError) : Bool :=
  let error_type := error.typeName
  let error_message := strLower error.message
  -- retry.py lines 126-136
  if error_type ∈ ["RateLimitError", "Timeout", "APIError",
      "APIConnectionError", "ServiceUnavailableError",
      "InternalServerError"] then true
  -- lines 139-140
  else if strContainsSub error_message "timeout" ||
      strContainsSub error_message "timed out" then true
  -- lines 143-144
  else if strContainsSub error_message "429" ||
      strContainsSub error_message "rate limit" then true
  -- lines 147-148
  else if strContainsSub error_message "connection" &&
      (strContainsSub error_message "failed" ||
       strContainsSub error_message "error") then true
  else false

/-- Classifier `_is_permanent_error` (retry.py lines 153-186): exact
type-name match against the permanent list, then message-token checks on
the lowercased message. -/
def _is_permanent_error (error : PyError) : Bool :=
  let error_type := error.typeName
  let error_message := strLower error.message
  -- retry.py lines 164-172
  if error_type ∈ ["AuthenticationError", "InvalidRequestError",
      "PermissionDeniedError", "NotFoundError"] then true
  -- line 175
  else if strContainsSub error_message "401" ||
      strContainsSub error_message "unauthorized" ||
      strContainsSub error_message "authentication" then true
  -- line 179
  else if strContainsSub error_message "400" ||
      strContainsSub error_message "bad request" ||
      strContainsSub error_message "invalid request" then true
  -- line 183
  else if strContainsSub error_message "403" ||
      strContainsSub error_message "forbidden" ||
      strContainsSub error_message "permission denied" then true
  else false

/-- The loop body of `retry_with_exponential_backoff.wrapper` (retry.py
lines 42-111).  `attempt` is the 0-based loop counter and `remaining`
the number of loop iterations left (`max_attempts - attempt`), so the
Python `attempts_remaining = max_attempts - attempt - 1` is the
`remaining` bound in the `remaining + 1` pattern.  The wrapped function
is `op : Nat → Except PyError α`, the outcome of invoking it on each
attempt.  The value is `(outcome, sleeps, calls)`: `outcome = none`
models the implicit `None` return when the loop body never runs (line
108 finds no recorded exception), `some (.ok v)` a returned value,
`some (.error e)` a raised exception; `sleeps` lists the `time.sleep`
durations performed in order; `calls` counts invocations of the wrapped
function.  Line 82's `delay_index = min(attempt, len(backoff_delays) -
1)` is in range whenever the schedule is nonempty (an empty schedule
makes line 83 raise IndexError in Python, so theorems that reach the
sleep path carry a nonempty-schedule hypothesis). -/
def retryLoop {α : Type} (backoff_delays : List Nat)
    (op : Nat → Except PyError α) :
    Nat → Nat → Option (Except PyError α) × List Nat × Nat
  | 0, _ => (none, [], 0)
  | remaining + 1, attempt =>
    match op attempt with
    | .ok result => (some (.ok result), [], 1)
    | .error e =>
      if _is_permanent_error e then (some (.error e), [], 1)
      else if ! _is_retryable_error e then (some (.error e), [], 1)
      else if remaining > 0 then
        let delay := backoff_delays.getD
          (min attempt (backoff_delays.length - 1)) 0
        let rest := retryLoop backoff_delays op remaining (attempt + 1)
        (rest.1, delay :: rest.2.1, rest.2.2 + 1)
      else (some (.error e), [], 1)

/-- A call of the decorated function: Python's `for attempt in
range(max_attempts)` performs `max(0, max_attempts)` iterations, which
is `max_attempts.toNat`. -/
def retry_with_exponential_backoff {α : Type} (max_attempts : Int)
    (backoff_delays : List Nat) (op : Nat → Except PyError α) :
    Option (Except PyError α) × List Nat × Nat :=
  retryLoop backoff_delays op max_attempts.toNat 0

/-- A successful attempt returns its value with no sleep and one call. -/
lemma retryLoop_success {α : Type} (backoff_delays : List Nat)
    (op : Nat → Except PyError α) (remaining attempt : Nat) (v : α)
    (h : op attempt = .ok v) :
    retryLoop backoff_delays op (remaining + 1) attempt =
      (some (.ok v), [], 1) := by
  simp [retryLoop, h]

/-- A permanent-classified error is re-raised at once. -/
lemma retryLoop_permanent {α : Type} (backoff_delays : List Nat)
    (op : Nat → Except PyError α) (remaining attempt : Nat) (e : PyError)
    (h : op attempt = .error e) (hp : _is_permanent_error e = true) :
    retryLoop backoff_delays op (remaining + 1) attempt =
      (some (.error e), [], 1) := by
  simp [retryLoop, h, hp]

/-- An error classified neither permanent nor retryable is re-raised at
once. -/
lemma retryLoop_nonretryable {α : Type} (backoff_delays : List Nat)
    (op : Nat → Except PyError α) (remaining attempt : Nat) (e : PyError)
    (h : op attempt = .error e) (hp : _is_permanent_error e = false)
    (hr : _is_retryable_error e = false) :
    retryLoop backoff_delays op (remaining + 1) attempt =
      (some (.error e), [], 1) := by
  simp [retryLoop, h, hp, hr]

/-- A transient error on the last remaining attempt is re-raised with no
further sleep. -/
lemma retryLoop_transient_exhaust {α : Type} (backoff_delays : List Nat)
    (op : Nat → Except PyError α) (attempt : Nat) (e : PyError)
    (h : op attempt = .error e) (hp : _is_permanent_error e = false)
    (hr : _is_retryable_error e = true) :
    retryLoop backoff_delays op 1 attempt = (some (.error e), [], 1) := by
  simp [retryLoop, h, hp, hr]

/-- A transient error with attempts remaining sleeps for the scheduled
delay and continues with the next attempt. -/
lemma retryLoop_transient_step {α : Type} (backoff_delays : List Nat)
    (op : Nat → Except PyError α) (remaining attempt : Nat) (e : PyError)
    (h : op attempt = .error e) (hp : _is_permanent_error e = false)
    (hr : _is_retryable_error e = true) (hrem : 0 < remaining) :
    retryLoop backoff_delays op (remaining + 1) attempt =
      ((retryLoop backoff_delays op remaining (attempt + 1)).1,
       backoff_delays.getD (min attempt (backoff_delays.length - 1)) 0 ::
         (retryLoop backoff_delays op remaining (attempt + 1)).2.1,
       (retryLoop backoff_delays op remaining (attempt + 1)).2.2 + 1) := by
  simp [retryLoop, h, hp, hr, hrem]

/-- Running the loop across a block of `steps` consecutive
transient-failing attempts performs the scheduled sleeps for those
attempts and continues from the attempt after the block. -/
lemma retryLoop_transient_run {α : Type} (backoff_delays : List Nat)
    (op : Nat → Except PyError α) (steps : Nat) :
    ∀ (remaining attempt : Nat), steps < remaining →
    (∀ i, attempt ≤ i → i < attempt + steps →
      ∃ e, op i = .error e ∧ _is_permanent_error e = false ∧
        _is_retryable_error e = true) →
    retryLoop backoff_delays op remaining attempt =
      ((retryLoop backoff_delays op (remaining - steps) (attempt + steps)).1,
       (List.range' attempt steps).map
           (fun i => backoff_delays.getD (min i (backoff_delays.length - 1)) 0) ++
         (retryLoop backoff_delays op (remaining - steps) (attempt + steps)).2.1,
       (retryLoop backoff_delays op (remaining - steps) (attempt + steps)).2.2 +
         steps) := by
  induction steps with
  | zero => intro remaining attempt _ _; simp
  | succ k ih =>
    intro remaining attempt hlt htrans
    obtain ⟨r, rfl⟩ : ∃ r, remaining = r + 1 := ⟨remaining - 1, by omega⟩
    obtain ⟨e, he, hpe, hre⟩ :=
      htrans attempt (Nat.le_refl _) (by omega)
    rw [retryLoop_transient_step backoff_delays op r attempt e he hpe hre
      (by omega)]
    rw [ih r (attempt + 1) (by omega)
      (fun i hi hi2 => htrans i (by omega) (by omega))]
    have h1 : r + 1 - (k + 1) = r - k := by omega
    have h2 : attempt + (k + 1) = attempt + 1 + k := by omega
    rw [h1, h2, List.range'_succ]
    simp [Nat.add_assoc]

/-! ## Theorems: Backoff Policy claims -/

/-- C4: with `max_attempts = 3` and the default schedule `[1, 2, 4]`, an
operation raising transient-classified errors on attempts 1 and 2 and
succeeding on attempt 3 returns the success value after exactly three
invocations, with exactly two sleeps of 1 second then 2 seconds. -/
theorem c4_two_transient_then_success {α : Type}
    (op : Nat → Except PyError α) (e1 e2 : PyError) (v : α)
    (h0 : op 0 = .error e1) (hp0 : _is_permanent_error e1 = false)
    (hr0 : _is_retryable_error e1 = true)
    (h1 : op 1 = .error e2) (hp1 : _is_permanent_error e2 = false)
    (hr1 : _is_retryable_error e2 = true)
    (h2 : op 2 = .ok v) :
    retry_with_exponential_backoff 3 [1, 2, 4] op =
      (some (.ok v), [1, 2], 3) := by
  unfold retry_with_exponential_backoff
  rw [show (3 : Int).toNat = 3 from rfl]
  have htrans : ∀ i, 0 ≤ i → i < 0 + 2 →
      ∃ e, op i = .error e ∧ _is_permanent_error e = false ∧
        _is_retryable_error e = true := by
    intro i _ hi2
    have hi2' : i < 2 := by omega
    interval_cases i
    · exact ⟨e1, h0, hp0, hr0⟩
    · exact ⟨e2, h1, hp1, hr1⟩
  rw [retryLoop_transient_run [1, 2, 4] op 2 3 0 (by omega) htrans]
  norm_num
  have hsucc : retryLoop [1, 2, 4] op 1 2 = (some (.ok v), [], 1) :=
    retryLoop_success [1, 2, 4] op 0 2 v h2
  rw [hsucc]
  exact ⟨rfl, rfl, rfl⟩

/-- Witness for C4: a concrete operation failing with `RateLimitError`
twice and then succeeding with value 42. -/
theorem c4_two_transient_then_success_witness :
    retry_with_exponential_backoff 3 [1, 2, 4]
        (fun i => if i < 2 then
          (.error ⟨"RateLimitError", "429"⟩ : Except PyError Nat)
          else .ok 42) = (some (.ok 42), [1, 2], 3) :=
  c4_two_transient_then_success _ ⟨"RateLimitError", "429"⟩
    ⟨"RateLimitError", "429"⟩ 42 rfl (by decide) (by decide) rfl
    (by decide) (by decide) rfl

/-- C5 counterexample: the claim quantifies over every `maxAttempts`
value, but with `max_attempts = 0` the Python loop body never runs: the
wrapped function is never invoked and the wrapper returns `None` (zero
calls, zero sleeps) instead of propagating the permanent error. -/
theorem c5_zero_attempts_counterexample :
    retry_with_exponential_backoff 0 [1, 2, 4]
        (fun _ => (.error ⟨"AuthenticationError", "401 unauthorized"⟩ :
          Except PyError Nat)) = (none, [], 0) ∧
    _is_permanent_error ⟨"AuthenticationError", "401 unauthorized"⟩ = true ∧
    (retry_with_exponential_backoff 0 [1, 2, 4]
        (fun _ => (.error ⟨"AuthenticationError", "401 unauthorized"⟩ :
          Except PyError Nat))).1 ≠
      some (.error ⟨"AuthenticationError", "401 unauthorized"⟩) :=
  ⟨rfl, by decide, fun hcontra => Option.noConfusion hcontra⟩

/-- C5 amended: for every `max_attempts ≥ 1`, an operation raising a
permanent-classified error on attempt 1 has that error propagated
immediately: one invocation, zero sleeps, regardless of the remaining
attempt budget and of the schedule. -/
theorem c5_permanent_immediate {α : Type} (max_attempts : Int)
    (hma : 1 ≤ max_attempts) (backoff_delays : List Nat)
    (op : Nat → Except PyError α) (e : PyError)
    (h : op 0 = .error e) (hp : _is_permanent_error e = true) :
    retry_with_exponential_backoff max_attempts backoff_delays op =
      (some (.error e), [], 1) := by
  unfold retry_with_exponential_backoff
  obtain ⟨r, hr⟩ : ∃ r, max_attempts.toNat = r + 1 :=
    ⟨max_attempts.toNat - 1, by omega⟩
  rw [hr]
  exact retryLoop_permanent backoff_delays op r 0 e h hp

/-- Witness for C5's amended statement: an `AuthenticationError` on the
first attempt with `max_attempts = 3` propagates at once. -/
theorem c5_permanent_immediate_witness :
    retry_with_exponential_backoff 3 [1, 2, 4]
        (fun _ => (.error ⟨"AuthenticationError", ""⟩ : Except PyError Nat)) =
      (some (.error ⟨"AuthenticationError", ""⟩), [], 1) :=
  c5_permanent_immediate 3 (by decide) [1, 2, 4] _
    ⟨"AuthenticationError", ""⟩ rfl (by decide)

/-- C6: for every `max_attempts ≥ 1` and nonempty schedule, an operation
raising a transient-classified error on every attempt is invoked exactly
`max_attempts` times, sleeps exactly `max_attempts - 1` times using the
schedule entry at index `min(attempt - 1, len(schedule) - 1)` for the
sleep after the attempt numbered `attempt` (1-based), and propagates the
error of the final attempt. -/
theorem c6_all_transient_exhausts {α : Type} (max_attempts : Int)
    (hma : 1 ≤ max_attempts) (backoff_delays : List Nat)
    (hde : backoff_delays ≠ []) (op : Nat → Except PyError α)
    (errs : Nat → PyError)
    (hop : ∀ i < max_attempts.toNat, op i = .error (errs i))
    (hperm : ∀ i < max_attempts.toNat, _is_permanent_error (errs i) = false)
    (hretr : ∀ i < max_attempts.toNat, _is_retryable_error (errs i) = true) :
    retry_with_exponential_backoff max_attempts backoff_delays op =
      (some (.error (errs (max_attempts.toNat - 1))),
       (List.range (max_attempts.toNat - 1)).map
         (fun i => backoff_delays.getD (min i (backoff_delays.length - 1)) 0),
       max_attempts.toNat) := by
  unfold retry_with_exponential_backoff
  set n := max_attempts.toNat with hn
  have hn1 : 1 ≤ n := by omega
  have hrun := retryLoop_transient_run backoff_delays op (n - 1) n 0
    (by omega)
    (fun i hi hi2 => ⟨errs i, hop i (by omega), hperm i (by omega),
      hretr i (by omega)⟩)
  rw [hrun]
  have hx : n - (n - 1) = 1 := by omega
  have hy : 0 + (n - 1) = n - 1 := by omega
  rw [hx, hy, retryLoop_transient_exhaust backoff_delays op (n - 1)
    (errs (n - 1)) (hop (n - 1) (by omega)) (hperm (n - 1) (by omega))
    (hretr (n - 1) (by omega))]
  simp only [List.range_eq_range', List.append_nil, Prod.mk.injEq]
  exact ⟨trivial, trivial, by omega⟩

/-- Witness for C6: three timeouts in a row with `max_attempts = 3` give
three calls, sleeps `[1, 2]`, and the final error. -/
theorem c6_all_transient_exhausts_witness :
    retry_with_exponential_backoff 3 [1, 2, 4]
        (fun _ => (.error ⟨"Timeout", "Request timed out"⟩ :
          Except PyError Nat)) =
      (some (.error ⟨"Timeout", "Request timed out"⟩), [1, 2], 3) := by
  rw [c6_all_transient_exhausts 3 (by decide) [1, 2, 4] (by decide)
    (fun _ => (.error ⟨"Timeout", "Request timed out"⟩ : Except PyError Nat))
    (fun _ => ⟨"Timeout", "Request timed out"⟩)
    (fun i _ => rfl)
    (fun i _ => (by decide :
      _is_permanent_error ⟨"Timeout", "Request timed out"⟩ = false))
    (fun i _ => (by decide :
      _is_retryable_error ⟨"Timeout", "Request timed out"⟩ = true))]
  rfl

/-- C7: an error classified neither permanent nor retryable is
propagated at once on the attempt where it occurs: if attempts before
the 0-based attempt `k` fail transiently and attempt `k` raises an
unclassified error, the wrapper re-raises that error after exactly
`k + 1` invocations with no sleep following attempt `k` (exactly the
`k` sleeps of the earlier transient attempts, so zero sleeps when the
unclassified error occurs on the first attempt). -/
theorem c7_unclassified_propagates {α : Type} (max_attempts : Int)
    (backoff_delays : List Nat) (op : Nat → Except PyError α)
    (errs : Nat → PyError) (k : Nat) (hk : k < max_attempts.toNat)
    (hop : ∀ i < k, op i = .error (errs i))
    (hperm : ∀ i < k, _is_permanent_error (errs i) = false)
    (hretr : ∀ i < k, _is_retryable_error (errs i) = true)
    (e : PyError) (hke : op k = .error e)
    (hp : _is_permanent_error e = false)
    (hr : _is_retryable_error e = false) :
    (retry_with_exponential_backoff max_attempts backoff_delays op).1 =
        some (.error e) ∧
    (retry_with_exponential_backoff max_attempts
        backoff_delays op).2.1.length = k ∧
    (retry_with_exponential_backoff max_attempts backoff_delays op).2.2 =
        k + 1 := by
  unfold retry_with_exponential_backoff
  set n := max_attempts.toNat with hn
  have hrun := retryLoop_transient_run backoff_delays op k n 0 hk
    (fun i hi hi2 => ⟨errs i, hop i (by omega), hperm i (by omega),
      hretr i (by omega)⟩)
  rw [hrun]
  obtain ⟨m, hm⟩ : ∃ m, n - k = m + 1 := ⟨n - k - 1, by omega⟩
  have hzk : 0 + k = k := by omega
  rw [hzk, hm, retryLoop_nonretryable backoff_delays op m k e hke hp hr]
  refine ⟨rfl, ?_, ?_⟩
  · simp
  · simp [Nat.add_comm]

/-- Witness for C7: a timeout on attempt 1 then a `ValueError` on
attempt 2 (with `max_attempts = 3`): the `ValueError` is re-raised after
two calls and only the one sleep that followed the timeout. -/
theorem c7_unclassified_propagates_witness :
    (retry_with_exponential_backoff 3 [1, 2, 4]
        (fun i => if i = 0 then
          (.error ⟨"Timeout", ""⟩ : Except PyError Nat)
          else .error ⟨"ValueError", "boom"⟩)).1 =
        some (.error ⟨"ValueError", "boom"⟩) ∧
    (retry_with_exponential_backoff 3 [1, 2, 4]
        (fun i => if i = 0 then
          (.error ⟨"Timeout", ""⟩ : Except PyError Nat)
          else .error ⟨"ValueError", "boom"⟩)).2.1.length = 1 ∧
    (retry_with_exponential_backoff 3 [1, 2, 4]
        (fun i => if i = 0 then
          (.error ⟨"Timeout", ""⟩ : Except PyError Nat)
          else .error ⟨"ValueError", "boom"⟩)).2.2 = 1 + 1 :=
  c7_unclassified_propagates 3 [1, 2, 4] _ (fun _ => ⟨"Timeout", ""⟩) 1
    (by decide)
    (fun i hi => by
      have h0 : i = 0 := Nat.lt_one_iff.mp hi
      subst h0
      rfl)
    (fun i _ => (by decide : _is_permanent_error ⟨"Timeout", ""⟩ = false))
    (fun i _ => (by decide : _is_retryable_error ⟨"Timeout", ""⟩ = true))
    ⟨"ValueError", "boom"⟩ rfl (by decide) (by decide)

/-- C9: with a non-positive `max_attempts` the loop `for attempt in
range(max_attempts)` performs no iteration, so the wrapped function is
never invoked, nothing is raised, no sleep happens, and the wrapper
returns `None`. -/
theorem c9_nonpositive_attempts_return_none {α : Type} (max_attempts : Int)
    (h : max_attempts ≤ 0) (backoff_delays : List Nat)
    (op : Nat → Except PyError α) :
    retry_with_exponential_backoff max_attempts backoff_delays op =
      (none, [], 0) := by
  unfold retry_with_exponential_backoff
  have h0 : max_attempts.toNat = 0 := by omega
  rw [h0]
  rfl

/-- Witness for C9 at `max_attempts = -2` (and, by the theorem, at 0):
the operation would succeed if called, yet the wrapper returns `None`
with zero calls. -/
theorem c9_nonpositive_attempts_return_none_witness :
    retry_with_exponential_backoff (-2) [1, 2, 4]
        (fun _ => (.ok 7 : Except PyError Nat)) = (none, [], 0) :=
  c9_nonpositive_attempts_return_none (-2) (by decide) [1, 2, 4] _
